import Mathlib

/-!
# Verification of the Salesforce session-acquisition flow

A shallow embedding of `src/scripts/salesforce-login.js` (the session
acquisition and persistence state machine) together with proofs about it.

Conventions of the embedding:
* JavaScript strings are Lean `String`s; `String.prototype.includes` becomes
  `strIncludes` below.
* Each `await`ed browser call that may reject is modelled by an
  `Except String _` value supplied by the environment; calls that carry a
  `.catch(() => \x7b\x7d)` handler in the source never throw and are modelled
  by plain values (the URL the page ends up at, a boolean, ...).
* The flow is modelled with `DEBUG = false` and `HEADED = false` (the default
  `npm run login` invocation): the `log(...)` debug helper prints nothing and
  the interactive `waitForEnter` branches are skipped.
* Fuel arguments stand for the bounded time-based poll loops; the environment
  is static during a run, so any positive fuel yields the behaviour of the
  bounded loop.
-/

/-- `charsInclude pat s` : does `s` contain `pat` as a contiguous substring?
(Character-list core of JavaScript `String.prototype.includes`.) -/
def charsInclude (pat : List Char) : List Char → Bool
  | [] => pat.isEmpty
  | s@(_ :: rest) => pat.isPrefixOf s || charsInclude pat rest

/-- JavaScript `s.includes(pat)`. -/
def strIncludes (s pat : String) : Bool :=
  charsInclude pat.toList s.toList

/-- ASCII lowering of a string, as a character list (the case-insensitive `/i`
regex flag is modelled by comparing lowered text against lowered patterns). -/
def lowerChars (s : String) : List Char :=
  s.toList.map Char.toLower

/-- Strip leading and trailing whitespace from a character list. -/
def trimChars (l : List Char) : List Char :=
  ((l.dropWhile Char.isWhitespace).reverse.dropWhile Char.isWhitespace).reverse

/-- JavaScript `String.prototype.trim`. -/
def jsTrim (s : String) : String :=
  String.mk (trimChars s.toList)

/-! ## SessionStore: `loadStateFile` (source lines 20-32) -/

/-- A cookie as read from the saved state file.  `loadStateFile` only ever
inspects the `domain` field (which may be absent), so only it is modelled. -/
structure Cookie where
  domain : Option String
deriving DecidableEq

/-- The JSON value obtained from a successful `JSON.parse` of the state file:
an object whose `cookies` field may be absent (`data.cookies || []`). -/
structure ParsedState where
  cookies : Option (List Cookie)

/-- Outcome of `readFileSync` + `JSON.parse` on the state file: either some
exception (missing file, unreadable file, malformed JSON) or parsed data. -/
inductive ReadResult where
  | failure (err : String)
  | success (data : ParsedState)

/-- What `loadStateFile` returns: `{ cookies, lightningBaseUrl }`. -/
structure SessionArtifact where
  cookies : List Cookie
  lightningBaseUrl : Option String
deriving DecidableEq

/-- JavaScript truthiness of `c.domain` (absent or empty string is falsy). -/
def cookieDomainTruthy (c : Cookie) : Bool :=
  match c.domain with
  | some d => !(d == "")
  | none => false

/-- Source lines 26-27: find the first cookie whose (truthy) domain contains
`lightning.force.com` and build `https://<domain>` from it; the spec calls
this computation `deriveEndpoint`. -/
def deriveEndpoint (cookies : List Cookie) : Option String :=
  match cookies.find? (fun c =>
      cookieDomainTruthy c && strIncludes (c.domain.getD "") "lightning.force.com") with
  | some c =>
      if cookieDomainTruthy c then some ("https://" ++ c.domain.getD "") else none
  | none => none

/-- Source lines 21-32: `loadStateFile`.  The whole body sits inside
`try ... catch`, so any read or parse failure yields the empty artifact. -/
def loadStateFile (read : ReadResult) : SessionArtifact :=
  match read with
  | .failure _ => { cookies := [], lightningBaseUrl := none }
  | .success data =>
      let cookies := data.cookies.getD []
      { cookies := cookies, lightningBaseUrl := deriveEndpoint cookies }

/-! ## Constants (source lines 45-49) -/

def SALESFORCE_URL : String := "https://test.salesforce.com/"

def SALESFORCE_HOME_URL : String := "https://test.salesforce.com/lightning/page/home"

/-- `STATE_FILE` is an absolute path produced by `resolve`; it is modelled by
its project-relative form, which only ever appears inside log messages. -/
def STATE_FILE : String := ".auth/salesforce-auth.json"

/-- `projectRoot` is machine dependent; it only appears inside one diagnostic
message, so an abstract placeholder string models it. -/
def projectRoot : String := "<project-root>"

/-! ## URL classification (source lines 133, 143 and 155-156) -/

/-- Classification used in probe stages 1 and 2 (source lines 133 and 143):
`!currentUrl.includes('login') && (currentUrl.includes('lightning') ||
currentUrl.includes('my.salesforce.com'))`. -/
def classifyStage12 (currentUrl : String) : Bool :=
  !(strIncludes currentUrl "login")
    && (strIncludes currentUrl "lightning" || strIncludes currentUrl "my.salesforce.com")

/-- Helper for the regex alternative `salesforce\.com\/[a-z0-9]\x7b15\x7d`
(case-insensitive, so evaluated on the lowered URL): the 15 characters after
the occurrence must all be lowercase letters or digits. -/
def sfIdTail (l : List Char) : Bool :=
  ((l.take 15).length == 15) && (l.take 15).all (fun c => c.isLower || c.isDigit)

/-- Scan for an occurrence of `salesforce.com/` followed by 15 alphanumeric
characters anywhere in the (lowered) character list. -/
def sfIdScan : List Char → Bool
  | [] => false
  | s@(_ :: rest) =>
      (("salesforce.com/".toList).isPrefixOf s && sfIdTail (s.drop 15)) || sfIdScan rest

/-- Classification used in probe stage 3 (source lines 155-156): the
case-insensitive regex
`/lightning|home\.jsp|\.com\/home|Setup|secur\/frontdoor|salesforce\.com\/[a-z0-9]\x7b15\x7d/i`
or (`includes('salesforce.com')` and not `includes('/login')` and not the
exact entry URL). -/
def classifyStage3 (currentUrl : String) : Bool :=
  (let low := lowerChars currentUrl
   charsInclude "lightning".toList low || charsInclude "home.jsp".toList low
     || charsInclude ".com/home".toList low || charsInclude "setup".toList low
     || charsInclude "secur/frontdoor".toList low || sfIdScan low)
  || (strIncludes currentUrl "salesforce.com" && !(strIncludes currentUrl "/login")
        && !(currentUrl == SALESFORCE_URL))

/-! ## The probe phase as a trace of navigation steps (source lines 121-162)

`probeFlow` records, for each navigation the probe phase performs, the target
URL, the `waitUntil` mode, the `goto` timeout, the settle delay that follows,
and which classifier (if any) is applied to the resulting URL.  The
environment supplies `u12` (the value of `page.url()` after the stage-1-or-2
navigation and its 3000 ms delay) and `u3` (the value of `page.url()` after
the stage-3 navigation and its 5000 ms delay). -/

inductive Classifier where
  | stage12
  | stage3
deriving DecidableEq

structure ProbeStep where
  target : String
  waitUntil : String
  timeoutMs : Nat
  settleMs : Nat
  classifier : Option Classifier
deriving DecidableEq

/-- Source line 151-153: `goto(SALESFORCE_URL, waitUntil 'load', 60000)` then
a 5000 ms delay, classified by the broad stage-3 match. -/
def stage3Step : ProbeStep :=
  { target := SALESFORCE_URL, waitUntil := "load", timeoutMs := 60000,
    settleMs := 5000, classifier := some Classifier.stage3 }

/-- Source line 160: after a positive stage-3 classification the dashboard is
opened; no delay and no classification follow. -/
def dashboardStep : ProbeStep :=
  { target := SALESFORCE_HOME_URL, waitUntil := "domcontentloaded", timeoutMs := 30000,
    settleMs := 0, classifier := none }

/-- Source lines 121-162.  `fileExists` is `hasSavedState = existsSync(STATE_FILE)`
(line 75); the state file is loaded (line 111) only when it exists. -/
def probeFlow (fileExists : Bool) (read : ReadResult) (u12 u3 : String) :
    List ProbeStep × Bool :=
  let savedStateData := if fileExists then some (loadStateFile read) else none
  match savedStateData with
  | some art =>
      let st : ProbeStep :=
        match art.lightningBaseUrl with
        | some base =>
            { target := base ++ "/lightning/page/home", waitUntil := "domcontentloaded",
              timeoutMs := 30000, settleMs := 3000, classifier := some Classifier.stage12 }
        | none =>
            { target := SALESFORCE_URL, waitUntil := "domcontentloaded",
              timeoutMs := 30000, settleMs := 3000, classifier := some Classifier.stage12 }
      if classifyStage12 u12 then ([st], true)
      else if classifyStage3 u3 then ([st, stage3Step, dashboardStep], true)
      else ([st, stage3Step], false)
  | none =>
      if classifyStage3 u3 then ([stage3Step, dashboardStep], true)
      else ([stage3Step], false)

/-- Modelled from the spec wording for the stage-1/2 classification:
"authenticated if it excludes any login marker and includes either a known
app-shell marker or the account-domain marker". -/
def specStage12Auth (url : String) : Bool :=
  !(strIncludes url "login")
    && (strIncludes url "lightning" || strIncludes url "my.salesforce.com")

/-! ## LoginFormFiller: `fillLoginInFrame` (source lines 166-195)

A frame's document is modelled by which CSS selectors its `querySelector`
resolves, plus (for the found username element) whether `closest('form')`
finds a form.  Setting field values and dispatching input/change events have
no observable effect on the modelled state and are elided. -/

/-- A DOM element, as far as `fillLoginInFrame` observes it: only
`closest('form')` on the username element is ever consulted. -/
structure Elem where
  closestForm : Bool

/-- A document, observed through `document.querySelector`. -/
structure Document where
  query : String → Option Elem

/-- The `\x7b done, message \x7d` object returned by `fillLoginInFrame`. -/
structure FillResult where
  done : Bool
  message : String
deriving DecidableEq

/-- Username selector chain (source line 170). -/
def usernameSelectors : List String :=
  ["input#username", "input[name=\"username\"]", "input.username", "input[type=\"email\"]"]

/-- Password selector chain (source line 171). -/
def passwordSelectors : List String :=
  ["input#password", "input[name=\"pw\"]", "input[type=\"password\"]"]

/-- Submit-control selector chain (source line 181). -/
def submitSelectors : List String :=
  ["input#Login", "input[name=\"Login\"]", "button[type=\"submit\"]", "input[type=\"submit\"]"]

/-- Form selector chain (source line 186), before the `u.closest('form')`
fallback. -/
def formSelectors : List String :=
  ["form#login_form", "form[name=\"login\"]"]

/-- The `find(a) || find(b) || ...` chain: first selector that resolves. -/
def findFirst (d : Document) : List String → Option Elem
  | [] => none
  | sel :: rest =>
      match d.query sel with
      | some e => some e
      | none => findFirst d rest

/-- Source lines 166-195: one field-injection attempt inside one document. -/
def fillLoginInFrame (d : Document) : FillResult :=
  match findFirst d usernameSelectors, findFirst d passwordSelectors with
  | none, _ => { done := false, message := "no username field" }
  | some _, none => { done := false, message := "no password field" }
  | some u, some _ =>
      match findFirst d submitSelectors with
      | some _ => { done := true, message := "submitted" }
      | none =>
          if (findFirst d formSelectors).isSome || u.closestForm then
            { done := true, message := "form submitted" }
          else
            { done := true, message := "filled, no button" }

/-! ## Frames, pages, and the three fill passes (source lines 197-253) -/

/-- A frame: its URL and its document.  `doc = none` models a frame in which
`frame.evaluate` always throws (e.g. a detached frame); the `try`/`catch` at
source lines 201-207 swallows that error and retries. -/
structure Frame where
  url : String
  doc : Option Document

/-- A page.  Playwright's `page.frames()` lists the main frame first,
followed by the child frames; `page.mainFrame()` is identity-compared against
frames, which positional indexing models (the main frame is element 0). -/
structure Page where
  mainFrame : Frame
  childFrames : List Frame

/-- `page.frames()`. -/
def Page.frames (p : Page) : List Frame :=
  p.mainFrame :: p.childFrames

/-- The result one call of `fillLoginInFrame` would report in this frame, if
its document can be evaluated at all. -/
def frameFillDone (fr : Frame) : Bool :=
  match fr.doc with
  | some d => (fillLoginInFrame d).done
  | none => false

/-- Source lines 198-211: `waitAndFillFrame` polls `fillLoginInFrame` every
500 ms until it reports done or the bound elapses; evaluation errors are
swallowed and retried.  The fuel counts the remaining poll ticks; fuel 0 is
the timeout result. -/
def waitAndFillFrame (fr : Frame) : Nat → FillResult
  | 0 => { done := false, message := "timeout" }
  | n + 1 =>
      match fr.doc with
      | none => waitAndFillFrame fr n
      | some d =>
          let result := fillLoginInFrame d
          if result.done then result else waitAndFillFrame fr n

/-- Poll ticks of the pass-1 outer loop: 35000 ms at one tick per 800 ms. -/
def pass1PollFuel : Nat := 44

/-- Poll ticks of `waitAndFillFrame(sessionFrame, ..., 20000)`. -/
def sessionFrameFillFuel : Nat := 40

/-- Poll ticks of `waitAndFillFrame(page.mainFrame(), ..., 15000)`. -/
def mainFrameFillFuel : Nat := 30

/-- Poll ticks of `waitAndFillFrame(frame, ..., 8000)` in pass 3. -/
def otherFrameFillFuel : Nat := 16

/-- Source line 218: `page.frames().find(f => f.url().includes('sessionserver'))`. -/
def sessionserverFrame (p : Page) : Option Frame :=
  p.frames.find? (fun f => strIncludes f.url "sessionserver")

/-- Source lines 216-229 (pass 1): poll for a sessionserver frame; when one is
present, run `waitAndFillFrame` in it and stop only when that reports done. -/
def pass1Poll (p : Page) : Nat → Bool
  | 0 => false
  | n + 1 =>
      match sessionserverFrame p with
      | some fr =>
          if (waitAndFillFrame fr sessionFrameFillFuel).done then true else pass1Poll p n
      | none => pass1Poll p n

/-- Source lines 242-253 (pass 3): iterate the frames, skipping the main frame
(element 0, already removed here) and every frame whose URL contains
`sessionserver`; stop at the first frame whose fill reports done. -/
def pass3Loop : List Frame → Bool
  | [] => false
  | fr :: rest =>
      if strIncludes fr.url "sessionserver" then pass3Loop rest
      else if (waitAndFillFrame fr otherFrameFillFuel).done then true
      else pass3Loop rest

/-- Source lines 215-253: the three ordered fill passes, with the list of
passes actually entered and the final value of `loginFilled`. -/
def fillPhaseT (p : Page) : List Nat × Bool :=
  if pass1Poll p pass1PollFuel then ([1], true)
  else if (waitAndFillFrame p.mainFrame mainFrameFillFuel).done then ([1, 2], true)
  else ([1, 2, 3], pass3Loop p.childFrames)

/-- The final value of `loginFilled` after the three passes. -/
def fillPhase (p : Page) : Bool :=
  (fillPhaseT p).2

/-- What pass 1 reports in a static environment: the first frame whose URL
contains `sessionserver`, if any, fills successfully. -/
def pass1Result (p : Page) : Bool :=
  match sessionserverFrame p with
  | some fr => frameFillDone fr
  | none => false

/-- What pass 2 reports in a static environment. -/
def pass2Result (p : Page) : Bool :=
  frameFillDone p.mainFrame

/-- What pass 3 reports in a static environment: some child frame whose URL
does not contain `sessionserver` fills successfully. -/
def pass3Result (p : Page) : Bool :=
  p.childFrames.any (fun fr => !(strIncludes fr.url "sessionserver") && frameFillDone fr)

/-- Modelled from the spec wording for pass 3: "every other embedded
sub-document present, skipping the top-level document and the one already
tried in pass 1" — i.e. only the single pass-1 frame is skipped, not every
frame whose URL carries the marker. -/
def claimedPass3Result (p : Page) : Bool :=
  let idx1 := p.frames.findIdx? (fun f => strIncludes f.url "sessionserver")
  (p.frames.enum).any (fun pr =>
    !(pr.1 == 0) && !(some pr.1 == idx1) && frameFillDone pr.2)

/-- Modelled from the spec wording: the fill operation reports done exactly
when one of the three passes as the spec describes them reports done. -/
def claimedFillDone (p : Page) : Bool :=
  pass1Result p || pass2Result p || claimedPass3Result p

/-! ## BrowserSession launch fallback (source lines 93-108) -/

/-- The browser engines involved in the launch: the two named channels tried
in order, then the bundled Chromium. -/
inductive Channel where
  | chrome
  | msedge
  | bundled
deriving DecidableEq

/-- `Except.isOk` as a Bool, for arbitrary context type. -/
def exceptOk {Ctx : Type} : Except String Ctx → Bool
  | .ok _ => true
  | .error _ => false

/-- Source lines 93-104: `for (const channel of ['chrome', 'msedge'])` with
`try \x7b launch; break \x7d catch \x7b continue \x7d`.  Returns the channels
attempted and the context obtained, if any. -/
def launchLoop {Ctx : Type} (launch : Channel → Except String Ctx) :
    List Channel → List Channel × Option Ctx
  | [] => ([], none)
  | ch :: rest =>
      match launch ch with
      | .ok c => ([ch], some c)
      | .error _ =>
          let r := launchLoop launch rest
          (ch :: r.1, r.2)

/-- Source lines 93-108: the named-channel loop followed, only when it left
`context` unset, by an unguarded launch of the bundled engine (line 106 has
no `try`/`catch`, so its failure propagates).  Returns the channels attempted
and the overall outcome. -/
def launchBrowser {Ctx : Type} (launch : Channel → Except String Ctx) :
    List Channel × Except String Ctx :=
  match launchLoop launch [Channel.chrome, Channel.msedge] with
  | (tried, some c) => (tried, .ok c)
  | (tried, none) => (tried ++ [Channel.bundled], launch Channel.bundled)

/-! ## The whole flow of `main` (source lines 55-295)

Modelled with `DEBUG = false`, `HEADED = false`, and the browser launch
already succeeded (the launch itself is `launchBrowser` above).  The
environment `FlowEnv` supplies every outcome the outside world decides. -/

/-- Environment of one run of `main`'s flow. -/
structure FlowEnv where
  /-- `existsSync(STATE_FILE)` (source line 75). -/
  fileExists : Bool
  /-- Outcome of reading and parsing the state file (source lines 23-24). -/
  readResult : ReadResult
  /-- Outcome of `context.addCookies(...)` (source line 113, awaited with no
  handler and outside the `try` block). -/
  addCookies : Except String Unit
  /-- `page.url()` after the stage-1-or-2 navigation and delay (its `goto`
  swallows failures via `.catch`). -/
  urlAfterS12 : String
  /-- Outcome of the stage-3 `page.goto` (source line 151, no `.catch`). -/
  stage3Goto : Except String Unit
  /-- `page.url()` after the stage-3 navigation and delay. -/
  urlAfterS3 : String
  /-- The page's frame tree during the fill phase. -/
  page : Page
  /-- Outcome of `page.waitForLoadState` (source line 258, no handler). -/
  waitLoad : Except String Unit
  /-- Whether the OTP probe resolved to visible (source line 262; its
  `.then/.catch` chain never throws). -/
  otpVisible : Bool
  /-- Outcome of `context.storageState(\x7b path \x7d)` (source line 277). -/
  save : Except String Unit

/-- Result of the `try` block body (source lines 121-288): the messages it
printed, the exception it raised (if any), and the flags it computed.
`saveAttempted` records whether `context.storageState` was invoked. -/
structure TryResult where
  logs : List String
  thrown : Option String
  isLoggedInUrl : Bool
  loginFilled : Bool
  saveAttempted : Bool

/-- Observable result of one whole run of `main`. -/
structure RunResult where
  logs : List String
  exitCode : Nat
  contextClosed : Bool
  saveAttempted : Bool
  isLoggedInUrl : Bool
  loginFilled : Bool

/-- Source line 64 (`console.log` joins its arguments with spaces). -/
def credentialLenLog (username : String) : String :=
  "Using credentials from .env (username length: " ++ toString username.length ++ " )"

/-- Source line 213: the credential-entry diagnostic, printed with plain
`console.log`; it interpolates both credential values. -/
def credsEnteredLog (username password : String) : String :=
  "Entering credentials in UI: username " ++ username ++ " password " ++ password

/-- Source line 111: the state file is loaded only when it exists. -/
def savedStateOf (env : FlowEnv) : Option SessionArtifact :=
  if env.fileExists then some (loadStateFile env.readResult) else none

/-- Source lines 110-116, which run after the context is open but before the
`try` block: inject saved cookies when there are any.  Returns the messages
printed and the exception raised, if any (`addCookies` is not guarded, so its
rejection escapes `main`). -/
def preTryStep (env : FlowEnv) : List String × Option String :=
  match savedStateOf env with
  | some art =>
      if art.cookies.length > 0 then
        match env.addCookies with
        | .ok _ => (["Loaded saved session from " ++ STATE_FILE], none)
        | .error e => ([], some e)
      else ([], none)
  | none => ([], none)

/-- Source lines 164-287: the fill phase (when the probe did not classify the
session as authenticated) followed by the submit/persist epilogue. -/
def afterProbe (username password : String) (env : FlowEnv)
    (logs : List String) (isLoggedInUrl : Bool) : TryResult :=
  let filled : List String × Bool :=
    if isLoggedInUrl then (logs, false)
    else (logs ++ [credsEnteredLog username password], fillPhase env.page)
  let logs := filled.1
  let loginFilled := filled.2
  if loginFilled then
    let logs := logs ++ ["Credentials entered from .env. Waiting for next page..."]
    match env.waitLoad with
    | .error e =>
        { logs := logs, thrown := some e, isLoggedInUrl := isLoggedInUrl,
          loginFilled := loginFilled, saveAttempted := false }
    | .ok _ =>
        let logs := logs ++
          (if env.otpVisible then ["OTP/verification detected. Enter the code in the browser."]
           else [])
        match env.save with
        | .error e =>
            { logs := logs, thrown := some e, isLoggedInUrl := isLoggedInUrl,
              loginFilled := loginFilled, saveAttempted := true }
        | .ok _ =>
            { logs := logs ++ ["Session saved to " ++ STATE_FILE], thrown := none,
              isLoggedInUrl := isLoggedInUrl, loginFilled := loginFilled,
              saveAttempted := true }
  else
    let logs :=
      if !isLoggedInUrl then logs ++ ["Already logged in (session from cookies)."] else logs
    { logs := logs, thrown := none, isLoggedInUrl := isLoggedInUrl,
      loginFilled := loginFilled, saveAttempted := false }

/-- Source lines 125-147 (probe stages 1 and 2): the messages printed and the
resulting value of `isLoggedInUrl`.  Stage 1 runs when the loaded artifact
yields a Lightning base URL, stage 2 when an artifact exists without one;
with no artifact, `isLoggedInUrl` stays false. -/
def probeS12 (env : FlowEnv) (savedStateData : Option SessionArtifact) :
    List String × Bool :=
  match savedStateData with
  | some art =>
      match art.lightningBaseUrl with
      | some _ =>
          let li := classifyStage12 env.urlAfterS12
          (["Loading saved session and opening dashboard..."] ++
            (if li then ["Already logged in. Dashboard opened."] else []), li)
      | none =>
          let li := classifyStage12 env.urlAfterS12
          ((if li then ["Already logged in."] else []), li)
  | none => ([], false)

/-- Source lines 121-288: the body of the `try` block.  The probe stages print
their messages and classify; the stage-3 `goto` may throw, aborting the rest
of the body. -/
def tryBlock (username password : String) (env : FlowEnv)
    (savedStateData : Option SessionArtifact) : TryResult :=
  let s12 := probeS12 env savedStateData
  let logs := s12.1
  let isLoggedInUrl := s12.2
  if isLoggedInUrl then
    afterProbe username password env logs true
  else
    match env.stage3Goto with
    | .error e =>
        { logs := logs, thrown := some e, isLoggedInUrl := false,
          loginFilled := false, saveAttempted := false }
    | .ok _ =>
        let li := classifyStage3 env.urlAfterS3
        let logs := logs ++ (if li then ["Already logged in. Opening dashboard..."] else [])
        afterProbe username password env logs li

/-- Source lines 55-295: one run of `main` (with the launch already
succeeded).  The `catch` block logs the error and sets `process.exitCode = 1`;
the `finally` block closes the context.  An exception raised before the `try`
block (from `addCookies`) escapes `main` as an unhandled rejection: Node
prints it and exits non-zero without ever closing the context. -/
def mainRun (usernameRaw passwordRaw : String) (env : FlowEnv) : RunResult :=
  let username := jsTrim usernameRaw
  let password := jsTrim passwordRaw
  if username == "" || password == "" then
    { logs := ["Set SF_USERNAME and SF_PASSWORD in .env (in the project root).",
               "Current .env lookup: project root = " ++ projectRoot],
      exitCode := 1, contextClosed := false, saveAttempted := false,
      isLoggedInUrl := false, loginFilled := false }
  else
    let logs := [credentialLenLog username]
    match preTryStep env with
    | (lgs, some e) =>
        { logs := logs ++ lgs ++ [e], exitCode := 1, contextClosed := false,
          saveAttempted := false, isLoggedInUrl := false, loginFilled := false }
    | (lgs, none) =>
        let t := tryBlock username password env (savedStateOf env)
        match t.thrown with
        | some e =>
            { logs := logs ++ lgs ++ t.logs ++ [e], exitCode := 1, contextClosed := true,
              saveAttempted := t.saveAttempted, isLoggedInUrl := t.isLoggedInUrl,
              loginFilled := t.loginFilled }
        | none =>
            { logs := logs ++ lgs ++ t.logs, exitCode := 0, contextClosed := true,
              saveAttempted := t.saveAttempted, isLoggedInUrl := t.isLoggedInUrl,
              loginFilled := t.loginFilled }

/-! ## Concrete inputs used by witnesses and counterexamples -/

/-- A document in which no selector resolves. -/
def emptyDoc : Document :=
  { query := fun _ => none }

/-- A document with a username input but no password input. -/
def userOnlyDoc : Document :=
  { query := fun s =>
      if s == "input#username" then some { closestForm := false } else none }

/-- A document with username and password inputs and a submit button. -/
def fullFormDoc : Document :=
  { query := fun s =>
      if s == "input#username" || s == "input#password" || s == "button[type=\"submit\"]" then
        some { closestForm := false }
      else none }

/-- A page whose main frame cannot be evaluated and with no child frames. -/
def pageEmpty : Page :=
  { mainFrame := { url := "", doc := none }, childFrames := [] }

/-- A page with two `sessionserver` child frames: the first (which pass 1
picks) has no password field, the second holds the complete login form. -/
def pageC2 : Page :=
  { mainFrame := { url := SALESFORCE_URL, doc := some emptyDoc },
    childFrames :=
      [{ url := "https://ok11.sessionserver.salesforce.com/a", doc := some userOnlyDoc },
       { url := "https://ok11.sessionserver.salesforce.com/b", doc := some fullFormDoc }] }

/-- A first-run environment: no state file, the entry page stays on the login
URL, and the page exposes no login form anywhere. -/
def envC7 : FlowEnv :=
  { fileExists := false, readResult := .failure "ENOENT",
    addCookies := .ok (), urlAfterS12 := "",
    stage3Goto := .ok (), urlAfterS3 := SALESFORCE_URL,
    page := pageEmpty, waitLoad := .ok (), otpVisible := false, save := .ok () }

/-- An environment whose state file parses to one cookie that Playwright's
`addCookies` rejects (a cookie object with no value), making the unguarded
`await context.addCookies(...)` on source line 113 reject. -/
def envC8 : FlowEnv :=
  { fileExists := true,
    readResult := .success { cookies := some [{ domain := none }] },
    addCookies := .error "cookies[0].value: expected string, got undefined",
    urlAfterS12 := "", stage3Goto := .ok (), urlAfterS3 := "",
    page := pageEmpty, waitLoad := .ok (), otpVisible := false, save := .ok () }

/-- A first-run environment in which the stage-3 navigation (source line 151,
the one `goto` with no `.catch`) rejects. -/
def envW8 : FlowEnv :=
  { fileExists := false, readResult := .failure "ENOENT",
    addCookies := .ok (), urlAfterS12 := "",
    stage3Goto := .error "goto failed", urlAfterS3 := "",
    page := pageEmpty, waitLoad := .ok (), otpVisible := false, save := .ok () }

/-- An environment with a valid saved session: the artifact yields a Lightning
base URL and the dashboard navigation lands on an authenticated URL. -/
def envW9 : FlowEnv :=
  { fileExists := true,
    readResult := .success { cookies := some [{ domain := some "eu1.lightning.force.com" }] },
    addCookies := .ok (),
    urlAfterS12 := "https://eu1.lightning.force.com/lightning/page/home",
    stage3Goto := .ok (), urlAfterS3 := "",
    page := pageEmpty, waitLoad := .ok (), otpVisible := false, save := .ok () }

/-! ## Helper lemmas -/

/-- With a static frame, one bounded `waitAndFillFrame` poll reports done
exactly when a single evaluation of `fillLoginInFrame` in that frame would. -/
theorem waitAndFill_done (fr : Frame) : ∀ n : Nat, (waitAndFillFrame fr (n + 1)).done = frameFillDone fr := by
  intro n
  induction n with
  | zero =>
      cases hd : fr.doc with
      | none => simp [waitAndFillFrame, frameFillDone, hd]
      | some d =>
          by_cases h : (fillLoginInFrame d).done = true
          · simp [waitAndFillFrame, frameFillDone, hd, h]
          · simp [waitAndFillFrame, frameFillDone, hd, h]
  | succ k ih =>
      cases hd : fr.doc with
      | none =>
          have : waitAndFillFrame fr (k + 1 + 1) = waitAndFillFrame fr (k + 1) := by
            simp [waitAndFillFrame, hd]
          rw [this, ih]
      | some d =>
          by_cases h : (fillLoginInFrame d).done = true
          · simp [waitAndFillFrame, frameFillDone, hd, h]
          · have : waitAndFillFrame fr (k + 1 + 1) = waitAndFillFrame fr (k + 1) := by
              simp [waitAndFillFrame, hd, h]
            rw [this, ih]

/-- Same statement for any positive fuel. -/
theorem waitAndFill_done_pos (fr : Frame) (n : Nat) (h : n ≠ 0) :
    (waitAndFillFrame fr n).done = frameFillDone fr := by
  cases n with
  | zero => exact absurd rfl h
  | succ k => exact waitAndFill_done fr k

/-- The pass-1 poll loop, with any positive fuel, reports whether the first
`sessionserver` frame (when there is one) fills successfully. -/
theorem pass1Poll_pos (p : Page) (n : Nat) (h : n ≠ 0) :
    pass1Poll p n = pass1Result p := by
  induction n with
  | zero => exact absurd rfl h
  | succ k ih =>
      cases hf : sessionserverFrame p with
      | none =>
          cases k with
          | zero => simp [pass1Poll, pass1Result, hf]
          | succ m =>
              have : pass1Poll p (m + 1 + 1) = pass1Poll p (m + 1) := by
                simp [pass1Poll, hf]
              rw [this, ih (Nat.succ_ne_zero m), pass1Result, hf]
      | some fr =>
          have hw : (waitAndFillFrame fr sessionFrameFillFuel).done = frameFillDone fr :=
            waitAndFill_done_pos fr sessionFrameFillFuel (by decide)
          by_cases hdone : frameFillDone fr = true
          · simp [pass1Poll, pass1Result, hf, hw, hdone]
          · cases k with
            | zero => simp [pass1Poll, pass1Result, hf, hw, hdone]
            | succ m =>
                have : pass1Poll p (m + 1 + 1) = pass1Poll p (m + 1) := by
                  simp [pass1Poll, hf, hw, hdone]
                rw [this, ih (Nat.succ_ne_zero m), pass1Result]

/-- The pass-3 loop reports whether some frame in the list whose URL lacks the
`sessionserver` marker fills successfully. -/
theorem pass3Loop_eq : ∀ l : List Frame,
    pass3Loop l = l.any (fun fr => !(strIncludes fr.url "sessionserver") && frameFillDone fr) := by
  intro l
  induction l with
  | nil => simp [pass3Loop]
  | cons fr rest ih =>
      have hw : (waitAndFillFrame fr otherFrameFillFuel).done = frameFillDone fr :=
        waitAndFill_done_pos fr otherFrameFillFuel (by decide)
      by_cases hs : strIncludes fr.url "sessionserver" = true
      · simp [pass3Loop, hs, ih]
      · by_cases hd : frameFillDone fr = true
        · simp [pass3Loop, hs, hw, hd]
        · simp [pass3Loop, hs, hw, hd, ih]

/-- The three fill passes, characterised by the per-pass static results:
passes run in order and stop at the first pass that reports done. -/
theorem fillPhaseT_eq (p : Page) :
    fillPhaseT p = (if pass1Result p then ([1], true)
                    else if pass2Result p then ([1, 2], true)
                    else ([1, 2, 3], pass3Result p)) := by
  unfold fillPhaseT
  rw [pass1Poll_pos p pass1PollFuel (by decide),
      waitAndFill_done_pos p.mainFrame mainFrameFillFuel (by decide),
      pass3Loop_eq]
  rfl

/-- `loginFilled` after the three passes is the disjunction of the three
per-pass results. -/
theorem fillPhase_eq (p : Page) :
    fillPhase p = (pass1Result p || pass2Result p || pass3Result p) := by
  unfold fillPhase
  rw [fillPhaseT_eq]
  by_cases h1 : pass1Result p = true
  · simp [h1]
  · by_cases h2 : pass2Result p = true
    · simp [h1, h2]
    · simp [h1, h2]

/-- Field characterisation of the post-probe phase: credentials are filled
only when the probe failed, and a save is attempted exactly when the fill
succeeded and `waitForLoadState` did not throw. -/
theorem afterProbe_fields (u pw : String) (env : FlowEnv) (logs : List String) (li : Bool) :
    (afterProbe u pw env logs li).isLoggedInUrl = li
    ∧ (afterProbe u pw env logs li).loginFilled = (!li && fillPhase env.page)
    ∧ (afterProbe u pw env logs li).saveAttempted
        = ((!li && fillPhase env.page) && exceptOk env.waitLoad) := by
  cases li <;> cases hf : fillPhase env.page <;>
    cases hw : env.waitLoad <;> cases hs : env.save <;>
      simp [afterProbe, exceptOk, hf, hw, hs]

/-- Field characterisation of the `try` block body, sufficient for the
persistence claims. -/
theorem tryBlock_fields (u pw : String) (env : FlowEnv) (s : Option SessionArtifact) :
    ((tryBlock u pw env s).saveAttempted = true → (tryBlock u pw env s).loginFilled = true)
    ∧ ((tryBlock u pw env s).isLoggedInUrl = true → (tryBlock u pw env s).saveAttempted = false)
    ∧ (fillPhase env.page = false → (tryBlock u pw env s).saveAttempted = false) := by
  have h12 : tryBlock u pw env s =
      (if (probeS12 env s).2 then afterProbe u pw env (probeS12 env s).1 true
       else
        match env.stage3Goto with
        | .error e =>
            { logs := (probeS12 env s).1, thrown := some e, isLoggedInUrl := false,
              loginFilled := false, saveAttempted := false }
        | .ok _ =>
            afterProbe u pw env
              ((probeS12 env s).1 ++
                (if classifyStage3 env.urlAfterS3 then ["Already logged in. Opening dashboard..."]
                 else []))
              (classifyStage3 env.urlAfterS3)) := rfl
  rw [h12]
  by_cases hli : (probeS12 env s).2 = true
  · have h := afterProbe_fields u pw env (probeS12 env s).1 true
    rw [if_pos hli]
    refine ⟨?_, ?_, ?_⟩
    · intro hs'
      rw [h.2.2] at hs'
      simp at hs'
    · intro _
      rw [h.2.2]
      simp
    · intro _
      rw [h.2.2]
      simp
  · rw [if_neg hli]
    cases hg : env.stage3Goto with
    | error e => simp
    | ok _ =>
        dsimp only
        have h := afterProbe_fields u pw env
          ((probeS12 env s).1 ++
            (if classifyStage3 env.urlAfterS3 then ["Already logged in. Opening dashboard..."]
             else []))
          (classifyStage3 env.urlAfterS3)
        refine ⟨?_, ?_, ?_⟩
        · intro hs'
          rw [h.2.2] at hs'
          rw [h.2.1]
          rcases Bool.and_eq_true _ _ |>.mp hs' with ⟨hs1, _⟩
          exact hs1
        · intro hli'
          rw [h.1] at hli'
          rw [h.2.2, hli']
          simp
        · intro hfill
          rw [h.2.2, hfill]
          simp

/-- Skipping a cookie that fails the Lightning-domain test leaves
`deriveEndpoint` unchanged. -/
theorem deriveEndpoint_cons_of_neg (c : Cookie) (l : List Cookie)
    (h : (cookieDomainTruthy c && strIncludes (c.domain.getD "") "lightning.force.com") = false) :
    deriveEndpoint (c :: l) = deriveEndpoint l := by
  unfold deriveEndpoint
  rw [List.find?_cons_of_neg _ (by simp [h])]

/-- A cookie that passes the Lightning-domain test at the head of the list
determines the derived endpoint. -/
theorem deriveEndpoint_cons_of_pos (c : Cookie) (l : List Cookie)
    (h : (cookieDomainTruthy c && strIncludes (c.domain.getD "") "lightning.force.com") = true) :
    deriveEndpoint (c :: l) = some ("https://" ++ c.domain.getD "") := by
  unfold deriveEndpoint
  have hfind : List.find? (fun c =>
      cookieDomainTruthy c && strIncludes (c.domain.getD "") "lightning.force.com") (c :: l)
      = some c := by
    simp [List.find?, h]
  rw [hfind]
  dsimp only
  rw [if_pos ((Bool.and_eq_true _ _).mp h).1]

/-! ## The claims -/

/-- Claim C1 (amended): a session-state file that exists but is empty or
unparseable is treated identically to an existing state file that parses to
an artifact with no cookies (whether the cookie list is present-but-empty or
absent): the same probe steps, with the same targets, settle delays and
classifications, and the same outcome.  It is not treated like a missing
file, which skips straight to the broader stage-3 probe — see the
counterexample. -/
theorem probe_unreadable_eq_empty_artifact (err u12 u3 : String) :
    probeFlow true (ReadResult.failure err) u12 u3
      = probeFlow true (ReadResult.success { cookies := some [] }) u12 u3
    ∧ probeFlow true (ReadResult.failure err) u12 u3
      = probeFlow true (ReadResult.success { cookies := none }) u12 u3 :=
  ⟨rfl, rfl⟩

/-- Claim C1 counterexample: with identical navigation outcomes, an existing
but unparseable state file produces a different probe trace from a missing
file: an extra generic probe with a 3000 ms settle delay and the stage-1/2
classification runs first. -/
theorem probe_unreadable_file_counterexample :
    probeFlow true (ReadResult.failure "unparseable") "" ""
      ≠ probeFlow false (ReadResult.failure "unparseable") "" "" := by
  decide

/-- Claim C2 (amended): the fill operation runs the three passes in order —
first the first frame whose URL contains the `sessionserver` marker, then the
main frame, then the remaining child frames skipping every frame whose URL
contains the marker (not only the one tried in pass 1) — stopping at the
first pass that reports done; `loginFilled` stays false (the FormNotFound
outcome) exactly when all three passes report not-done. -/
theorem fill_three_passes (p : Page) :
    fillPhaseT p = (if pass1Result p then ([1], true)
                    else if pass2Result p then ([1, 2], true)
                    else ([1, 2, 3], pass3Result p))
    ∧ fillPhase p = (pass1Result p || pass2Result p || pass3Result p) :=
  ⟨fillPhaseT_eq p, fillPhase_eq p⟩

/-- Claim C2 counterexample: on a page with two `sessionserver` frames where
only the second holds the complete form, the code reports FormNotFound (its
pass 3 skips every marker frame), while the three passes as the claim
describes them (pass 3 skipping only the pass-1 frame) would report done. -/
theorem fill_pass3_skip_counterexample :
    fillPhase pageC2 = false ∧ claimedFillDone pageC2 = true := by
  constructor
  · rw [fillPhase_eq]
    decide
  · decide

/-- Claim C3: with a saved artifact, the first probe step carries the
stage-1/2 classifier; that classifier marks a URL authenticated exactly when
it excludes the login marker and includes the app-shell or account-domain
marker; and a first probed URL so classified ends the probe immediately as
authenticated after a single step. -/
theorem probe_stage12_classification (read : ReadResult) (u12 u3 : String) :
    (∀ url, classifyStage12 url = specStage12Auth url)
    ∧ ((probeFlow true read u12 u3).1.head?.map ProbeStep.classifier
        = some (some Classifier.stage12))
    ∧ (specStage12Auth u12 = true →
        (probeFlow true read u12 u3).2 = true
        ∧ (probeFlow true read u12 u3).1.length = 1) := by
  refine ⟨fun url => rfl, ?_, ?_⟩
  · rcases hL : (loadStateFile read).lightningBaseUrl with _ | base <;>
      simp only [probeFlow, if_true, hL] <;>
      by_cases h12 : classifyStage12 u12 = true <;>
      by_cases h3 : classifyStage3 u3 = true <;>
      simp [h12, h3]
  · intro h
    have h12 : classifyStage12 u12 = true := h
    rcases hL : (loadStateFile read).lightningBaseUrl with _ | base <;>
      simp [probeFlow, hL, h12]

/-- Witness for the stage-1/2 classification at a concrete URL that carries
the app-shell marker and no login marker. -/
theorem probe_stage12_classification_witness :
    specStage12Auth "https://eu1.lightning.force.com/lightning/page/home" = true
    ∧ (probeFlow true (ReadResult.failure "e")
        "https://eu1.lightning.force.com/lightning/page/home" "").2 = true :=
  ⟨by decide,
   ((probe_stage12_classification (ReadResult.failure "e")
      "https://eu1.lightning.force.com/lightning/page/home" "").2.2 (by decide)).1⟩

/-- Claim C4: `deriveEndpoint` yields none on an empty cookie list, yields
`https://foo.lightning.force.com` for a single cookie with that domain, and
in general the first cookie whose (truthy) domain contains the
authenticated-subdomain suffix determines the result. -/
theorem deriveEndpoint_first_match :
    deriveEndpoint [] = none
    ∧ (∀ c : Cookie, c.domain = some "foo.lightning.force.com" →
        deriveEndpoint [c] = some "https://foo.lightning.force.com")
    ∧ (∀ (pre post : List Cookie) (c : Cookie),
        (∀ c' ∈ pre,
          (cookieDomainTruthy c' && strIncludes (c'.domain.getD "") "lightning.force.com")
            = false) →
        (cookieDomainTruthy c && strIncludes (c.domain.getD "") "lightning.force.com") = true →
        deriveEndpoint (pre ++ c :: post) = some ("https://" ++ c.domain.getD "")) := by
  refine ⟨rfl, ?_, ?_⟩
  · intro c h
    obtain ⟨d⟩ := c
    have h' : d = some "foo.lightning.force.com" := h
    subst h'
    decide
  · intro pre post c hpre hc
    induction pre with
    | nil =>
        simp only [List.nil_append]
        exact deriveEndpoint_cons_of_pos c post hc
    | cons c' pre' ih =>
        have hneg := hpre c' (List.mem_cons_self c' pre')
        rw [List.cons_append, deriveEndpoint_cons_of_neg c' _ hneg]
        exact ih (fun x hx => hpre x (List.mem_cons_of_mem c' hx))

/-- Witness: the two concrete `deriveEndpoint` evaluations named by the
claim. -/
theorem deriveEndpoint_first_match_witness :
    deriveEndpoint [] = none
    ∧ deriveEndpoint [{ domain := some "foo.lightning.force.com" }]
        = some "https://foo.lightning.force.com" :=
  ⟨deriveEndpoint_first_match.1,
   deriveEndpoint_first_match.2.1 { domain := some "foo.lightning.force.com" } rfl⟩

/-- Claim C5: `loadStateFile` is a total function (never raises) and maps
every read or parse failure to the empty artifact: no cookies and no derived
endpoint. -/
theorem loadStateFile_failure_empty (err : String) :
    loadStateFile (ReadResult.failure err) = { cookies := [], lightningBaseUrl := none } :=
  rfl

/-- Claim C6: the launch tries `chrome` then `msedge` in order, swallowing the
failure of a named engine and moving to the next; the bundled engine is
attempted only after both named engines failed; and the overall launch
succeeds exactly when some attempted engine succeeds — so it raises only when
the bundled engine also fails. -/
theorem launch_fallback_order {Ctx : Type} (launch : Channel → Except String Ctx) :
    (launchBrowser launch =
      match launch Channel.chrome, launch Channel.msedge with
      | .ok c, _ => ([Channel.chrome], Except.ok c)
      | .error _, .ok c => ([Channel.chrome, Channel.msedge], Except.ok c)
      | .error _, .error _ =>
          ([Channel.chrome, Channel.msedge, Channel.bundled], launch Channel.bundled))
    ∧ exceptOk (launchBrowser launch).2
        = (exceptOk (launch Channel.chrome) || exceptOk (launch Channel.msedge)
            || exceptOk (launch Channel.bundled)) := by
  cases h1 : launch Channel.chrome <;> cases h2 : launch Channel.msedge <;>
    constructor <;> simp [launchBrowser, launchLoop, exceptOk, h1, h2]

/-- Claim C7 (code violation): source line 213 prints the password's value
verbatim with an unconditional `console.log`, so two runs differing only in
two same-length password values produce different diagnostics, and the
password value occurs inside a logged message. -/
theorem password_value_logged :
    ((mainRun "user" "hunter2" envC7).logs.any (fun m => strIncludes m "hunter2")) = true
    ∧ (mainRun "user" "aaaaaaa" envC7).logs ≠ (mainRun "user" "bbbbbbb" envC7).logs := by
  exact ⟨by decide, by decide⟩

/-- Claim C8 (amended): for every failure raised inside the `try` block of the
flow, the `finally` step closes the context, the error is appended to the
diagnostics, and the exit code is set to 1; the success path closes the
context too and exits 0.  Failures raised between opening the context and
entering the `try` block (cookie injection, source line 113) are not covered
— see the counterexample. -/
theorem flow_cleanup_and_exit (u pw : String) (env : FlowEnv)
    (hu : (jsTrim u == "") = false) (hp : (jsTrim pw == "") = false)
    (hpre : (preTryStep env).2 = none) :
    (mainRun u pw env).contextClosed = true
    ∧ (∀ e, (tryBlock (jsTrim u) (jsTrim pw) env (savedStateOf env)).thrown = some e →
        (mainRun u pw env).exitCode = 1 ∧ e ∈ (mainRun u pw env).logs)
    ∧ ((tryBlock (jsTrim u) (jsTrim pw) env (savedStateOf env)).thrown = none →
        (mainRun u pw env).exitCode = 0) := by
  rcases hpp : preTryStep env with ⟨lgs, o⟩
  rw [hpp] at hpre
  dsimp only at hpre
  subst hpre
  unfold mainRun
  simp only [hu, hp, Bool.or_self, Bool.false_eq_true, if_false]
  rw [hpp]
  dsimp only
  cases hth : (tryBlock (jsTrim u) (jsTrim pw) env (savedStateOf env)).thrown with
  | some e' =>
      dsimp only
      refine ⟨rfl, ?_, ?_⟩
      · intro e he
        injection he with he'
        subst he'
        exact ⟨rfl, by simp⟩
      · intro hnone
        exact absurd hnone (by simp)
  | none =>
      dsimp only
      refine ⟨rfl, ?_, fun _ => rfl⟩
      intro e he
      exact absurd he (by simp)

/-- Witness: a stage-3 navigation failure is caught, logged, exits non-zero,
and the context is still closed. -/
theorem flow_cleanup_and_exit_witness :
    (mainRun "user" "pw" envW8).contextClosed = true
    ∧ (mainRun "user" "pw" envW8).exitCode = 1 :=
  ⟨(flow_cleanup_and_exit "user" "pw" envW8 rfl rfl rfl).1,
   ((flow_cleanup_and_exit "user" "pw" envW8 rfl rfl rfl).2.1 "goto failed" rfl).1⟩

/-- Claim C8 counterexample: when `addCookies` (source line 113, after the
context is opened but before the `try` block) rejects, the run fails with a
non-zero exit yet the context is never closed by any cleanup step. -/
theorem cleanup_gap_counterexample :
    (mainRun "user" "pw" envC8).exitCode = 1
    ∧ (mainRun "user" "pw" envC8).contextClosed = false :=
  ⟨rfl, rfl⟩

/-- Field characterisation of a whole run, sufficient for the persistence
claim: a save is attempted only when the fill phase succeeded. -/
theorem mainRun_fields (u pw : String) (env : FlowEnv) :
    ((mainRun u pw env).saveAttempted = true → (mainRun u pw env).loginFilled = true)
    ∧ ((mainRun u pw env).isLoggedInUrl = true → (mainRun u pw env).saveAttempted = false)
    ∧ (fillPhase env.page = false → (mainRun u pw env).saveAttempted = false) := by
  have ht := tryBlock_fields (jsTrim u) (jsTrim pw) env (savedStateOf env)
  unfold mainRun
  by_cases hcred : (jsTrim u == "" || jsTrim pw == "") = true
  · simp [hcred]
  · simp only [Bool.not_eq_true] at hcred
    simp only [hcred, Bool.false_eq_true, if_false]
    rcases hpp : preTryStep env with ⟨lgs, o⟩
    cases o with
    | some e => simp
    | none =>
        dsimp only
        cases hth : (tryBlock (jsTrim u) (jsTrim pw) env (savedStateOf env)).thrown with
        | some e =>
            dsimp only
            exact ⟨ht.1, ht.2.1, ht.2.2⟩
        | none =>
            dsimp only
            exact ⟨ht.1, ht.2.1, ht.2.2⟩

/-- Claim C9: the session-state file is written only on the path where
credentials were actually submitted (`loginFilled`): in every run whose probe
classifies the session as already authenticated, and in every run where all
three fill passes report not-done, no write of the session file is
attempted. -/
theorem state_saved_only_after_fill (u pw : String) (env : FlowEnv) :
    ((mainRun u pw env).isLoggedInUrl = true → (mainRun u pw env).saveAttempted = false)
    ∧ (pass1Result env.page = false → pass2Result env.page = false →
        pass3Result env.page = false → (mainRun u pw env).saveAttempted = false)
    ∧ ((mainRun u pw env).saveAttempted = true → (mainRun u pw env).loginFilled = true) := by
  refine ⟨(mainRun_fields u pw env).2.1, ?_, (mainRun_fields u pw env).1⟩
  intro h1 h2 h3
  apply (mainRun_fields u pw env).2.2
  rw [fillPhase_eq, h1, h2, h3]
  rfl

/-- Witness: a run whose probe lands on an authenticated URL attempts no
save of the session file. -/
theorem state_saved_only_after_fill_witness :
    (mainRun "user" "pw" envW9).isLoggedInUrl = true
    ∧ (mainRun "user" "pw" envW9).saveAttempted = false :=
  ⟨by decide, (state_saved_only_after_fill "user" "pw" envW9).1 (by decide)⟩

/-- Claim C10: one field-injection attempt reports done exactly when both a
username-like and a password-like input are located by the selector chains
(the submit-click, native-form-submission and degraded filled-no-button
endings all report done); the only not-done results carry one of the two
missing-field diagnostics. -/
theorem fillLoginInFrame_done_characterization (d : Document) :
    ((fillLoginInFrame d).done
      = ((findFirst d usernameSelectors).isSome && (findFirst d passwordSelectors).isSome))
    ∧ ((fillLoginInFrame d).done = false →
        (fillLoginInFrame d).message = "no username field"
        ∨ (fillLoginInFrame d).message = "no password field") := by
  rcases hu : findFirst d usernameSelectors with _ | u
  · refine ⟨by simp [fillLoginInFrame, hu], ?_⟩
    intro _
    left
    simp [fillLoginInFrame, hu]
  · rcases hp : findFirst d passwordSelectors with _ | pv
    · refine ⟨by simp [fillLoginInFrame, hu, hp], ?_⟩
      intro _
      right
      simp [fillLoginInFrame, hu, hp]
    · rcases hb : findFirst d submitSelectors with _ | b
      · by_cases hf : ((findFirst d formSelectors).isSome || u.closestForm) = true
        · refine ⟨by simp [fillLoginInFrame, hu, hp, hb, hf], ?_⟩
          intro hdone
          simp [fillLoginInFrame, hu, hp, hb, hf] at hdone
        · simp only [Bool.not_eq_true] at hf
          refine ⟨by simp [fillLoginInFrame, hu, hp, hb, hf], ?_⟩
          intro hdone
          simp [fillLoginInFrame, hu, hp, hb, hf] at hdone
      · refine ⟨by simp [fillLoginInFrame, hu, hp, hb], ?_⟩
        intro hdone
        simp [fillLoginInFrame, hu, hp, hb] at hdone

/-- Witness: a document with no username field yields a not-done result with
a missing-field diagnostic. -/
theorem fillLoginInFrame_done_characterization_witness :
    (fillLoginInFrame emptyDoc).message = "no username field"
    ∨ (fillLoginInFrame emptyDoc).message = "no password field" :=
  (fillLoginInFrame_done_characterization emptyDoc).2 rfl
